import Mathlib

/-!
# Verification of the landscape-client user manager, dispatch and transport layers

Shallow embedding of `landscape/manager/usermanager.py` and, where the
repository ships only tests for a component (`landscape/broker/transport.py`,
`landscape/lib/bpickle.py`, `landscape/lib/amp.py`), models built from the
specification, each marked `Modelled from the spec:` in its doc comment.

Conventions: Python dict lookup that can raise `KeyError` becomes `Option`
lookup; file/system effects become explicit parameters and event traces;
byte strings become `List Nat` with each element `< 256` where it matters.
-/

namespace Landscape

/-! ## Shadow-file scanning (`UserManagerDBusObject.get_locked_usernames`,
`UserManager.get_locked_usernames`, usermanager.py lines 30-43 and 144-157)

Both Python methods run the same loop over the lines of the shadow file:

    parts = line.split(":")
    if len(parts)>1:
        if parts[1].startswith("!"):
            locked_users.append(parts[0].strip())

We embed each loop separately (one per source method) over the list of lines
the file iteration yields. -/

/-- The per-line loop of `UserManagerDBusObject.get_locked_usernames`
(usermanager.py lines 36-40), over the lines read from the shadow file. -/
def UserManagerDBusObject.locked_from_lines : List String → List String
  | [] => []
  | line :: rest =>
    let parts := line.splitOn ":"
    if parts.length > 1 then
      if (parts.getD 1 "").startsWith "!" then
        (parts.getD 0 "").trim :: UserManagerDBusObject.locked_from_lines rest
      else UserManagerDBusObject.locked_from_lines rest
    else UserManagerDBusObject.locked_from_lines rest

/-- The per-line loop of `UserManager.get_locked_usernames`
(usermanager.py lines 150-154), over the lines read from the shadow file. -/
def UserManager.locked_from_lines : List String → List String
  | [] => []
  | line :: rest =>
    let parts := line.splitOn ":"
    if parts.length > 1 then
      if (parts.getD 1 "").startsWith "!" then
        (parts.getD 0 "").trim :: UserManager.locked_from_lines rest
      else UserManager.locked_from_lines rest
    else UserManager.locked_from_lines rest

/-- The characterization used by the refinement claim: the stripped first
colon-separated field of each line having at least two fields whose second
field starts with `"!"`. -/
def lockedSpec (lines : List String) : List String :=
  (lines.filter fun line =>
      decide ((line.splitOn ":").length > 1) &&
        ((line.splitOn ":").getD 1 "").startsWith "!").map
    fun line => ((line.splitOn ":").getD 0 "").trim

/-- Outcome of opening and iterating the shadow file: the open itself can
raise `IOError`, or iteration yields some lines and then optionally raises
`IOError` mid-read. -/
inductive ReadOutcome where
  | openErr (msg : String)
  | readLines (ls : List String) (midErr : Option String)

/-- Result of `UserManager.get_locked_usernames`: the returned list, the log
entries emitted, and the paths opened. -/
structure UMResult where
  usernames : List String
  log : List String
  opened : List String
deriving DecidableEq, Repr

/-- `UserManager.get_locked_usernames` (usermanager.py lines 144-157).
`shadow_file` is `self._shadow_file` (Python falsiness of `None` and `""` is
the `if self._shadow_file:` guard); `fs` maps a path to what opening and
iterating it yields.  An `IOError` (at open or mid-read) is logged via
`logging.error` and the usernames collected so far are returned. -/
def UserManager.get_locked_usernames (shadow_file : Option String)
    (fs : String → ReadOutcome) : UMResult :=
  match shadow_file with
  | Option.none => ⟨[], [], []⟩
  | Option.some path =>
    if path = "" then ⟨[], [], []⟩
    else
      match fs path with
      | ReadOutcome.openErr msg =>
        ⟨[], ["Error reading shadow file. " ++ msg], [path]⟩
      | ReadOutcome.readLines ls Option.none =>
        ⟨UserManager.locked_from_lines ls, [], [path]⟩
      | ReadOutcome.readLines ls (Option.some msg) =>
        ⟨UserManager.locked_from_lines ls,
          ["Error reading shadow file. " ++ msg], [path]⟩

/-- The two per-line loops are the same function (they are the same source
text, one in `UserManagerDBusObject`, one in `UserManager`). -/
theorem locked_from_lines_agree (ls : List String) :
    UserManagerDBusObject.locked_from_lines ls = UserManager.locked_from_lines ls := by
  induction ls with
  | nil => rfl
  | cons line rest ih =>
    simp only [UserManagerDBusObject.locked_from_lines, UserManager.locked_from_lines, ih]

/-- The `UserManager` loop computes the filter-then-map characterization. -/
theorem um_locked_from_lines_eq_spec (ls : List String) :
    UserManager.locked_from_lines ls = lockedSpec ls := by
  induction ls with
  | nil => rfl
  | cons line rest ih =>
    rw [UserManager.locked_from_lines, lockedSpec, List.filter_cons]
    by_cases h1 : (line.splitOn ":").length > 1
    · rw [if_pos h1]
      by_cases h2 : ((line.splitOn ":").getD 1 "").startsWith "!"
      · rw [if_pos h2, if_pos (by rw [decide_eq_true h1, h2]; rfl), List.map_cons,
          ih, lockedSpec]
      · rw [if_neg h2,
          if_neg (by rw [decide_eq_true h1, Bool.eq_false_iff.mpr h2]; simp),
          ih, lockedSpec]
    · rw [if_neg h1, if_neg (by rw [decide_eq_false h1]; simp), ih, lockedSpec]

/-- C10: `UserManager.get_locked_usernames` and
`UserManagerDBusObject.get_locked_usernames` compute the same function: on
every shadow-file content (list of lines) both return the identical list of
first colon-separated fields (stripped) of the lines having at least two
fields whose second field starts with `"!"`. -/
theorem dbus_um_locked_usernames_agree (ls : List String) :
    UserManagerDBusObject.locked_from_lines ls = UserManager.locked_from_lines ls ∧
      UserManager.locked_from_lines ls = lockedSpec ls :=
  ⟨locked_from_lines_agree ls, um_locked_from_lines_eq_spec ls⟩

/-- C9: `UserManager.get_locked_usernames` never raises: with an empty or
absent shadow-file path it returns the empty list without any file access
(and for every file system), and when opening or reading raises `IOError`
the error is logged and the usernames collected so far are returned. -/
theorem get_locked_usernames_never_raises (shadow_file : Option String)
    (fs : String → ReadOutcome) :
    ((shadow_file = Option.none ∨ shadow_file = Option.some "") →
      UserManager.get_locked_usernames shadow_file fs = ⟨[], [], []⟩) ∧
    (∀ path msg, shadow_file = Option.some path → path ≠ "" →
      fs path = ReadOutcome.openErr msg →
      UserManager.get_locked_usernames shadow_file fs =
        ⟨[], ["Error reading shadow file. " ++ msg], [path]⟩) ∧
    (∀ path ls msg, shadow_file = Option.some path → path ≠ "" →
      fs path = ReadOutcome.readLines ls (Option.some msg) →
      UserManager.get_locked_usernames shadow_file fs =
        ⟨UserManager.locked_from_lines ls,
          ["Error reading shadow file. " ++ msg], [path]⟩) := by
  refine ⟨?_, ?_, ?_⟩
  · rintro (h | h) <;> subst h <;> simp [UserManager.get_locked_usernames]
  · intro path msg hsf hne hfs
    subst hsf
    simp [UserManager.get_locked_usernames, hne, hfs]
  · intro path ls msg hsf hne hfs
    subst hsf
    simp [UserManager.get_locked_usernames, hne, hfs]

/-- Witness for C9 at concrete inputs: an open error on "/etc/shadow" is
logged and the empty list is returned. -/
theorem get_locked_usernames_never_raises_witness :
    UserManager.get_locked_usernames (Option.some "/etc/shadow")
        (fun _ => ReadOutcome.openErr "boom") =
      ⟨[], ["Error reading shadow file. boom"], ["/etc/shadow"]⟩ :=
  (get_locked_usernames_never_raises (Option.some "/etc/shadow")
      (fun _ => ReadOutcome.openErr "boom")).2.1 "/etc/shadow" "boom" rfl
    (by decide) rfl

/-! ## Message dispatch (`UserManager._message_dispatch`, usermanager.py
lines 159-171)

    def _message_dispatch(self, message):
        result = self._user_service.detect_changes()
        result.addCallback(self._perform_operation, message)
        result.addCallback(self._send_changes, message)
        return result

`_perform_operation` reads `message["type"]`, looks the handler up in
`self._message_types` (both dict lookups raise `KeyError` when missing) and
runs it through `call_with_operation_result` (from `ManagerPlugin`, not in
src/; per the spec handler failures are converted into the operation's
outcome, so the handler step is modelled as a single apply event).
`_send_changes` reads `message["operation-id"]` — unguarded — and invokes
`detect_changes(operation_id)` again.  We embed the deferred chain as the
trace of collaborator events it performs, together with the `KeyError`, if
any, that aborts the remainder of the chain. -/

/-- A message field value: dispatch only inspects the string `type` field and
the integer `operation-id` field. -/
inductive MVal where
  | s (v : String)
  | i (v : Int)
deriving DecidableEq, Repr

/-- A message: a string-keyed mapping, embedded as an association list. -/
abbrev Message := List (String × MVal)

/-- Python dict lookup: `Option.none` is the `KeyError` case. -/
def Message.find (m : Message) (k : String) : Option MVal := List.lookup k m

/-- The keys of `self._message_types` (usermanager.py lines 106-115). -/
def UserManager.message_types : List String :=
  ["add-user", "edit-user", "lock-user", "unlock-user", "remove-user",
   "add-group", "edit-group", "remove-group", "add-group-member",
   "remove-group-member"]

/-- A collaborator event performed during dispatch: a `detect_changes` call on
the user service (with its operation-id argument, `Option.none` for the
snapshot call) or the execution of the handler selected by the message type. -/
inductive DispatchEv where
  | detectChanges (opid : Option Int)
  | applyOp (mtype : String)
deriving DecidableEq, Repr

/-- What a dispatch performed: the ordered collaborator events, and the key of
the `KeyError` that aborted the rest of the callback chain, if any. -/
structure DispatchOutcome where
  events : List DispatchEv
  keyError : Option String
deriving DecidableEq, Repr

/-- `UserManager._message_dispatch` (usermanager.py lines 159-171) as an
event-trace function: `detect_changes()` first, then the handler looked up by
`message["type"]`, then `detect_changes(message["operation-id"])`. -/
def UserManager.message_dispatch (msg : Message) : DispatchOutcome :=
  let snapshot := [DispatchEv.detectChanges Option.none]
  match msg.find "type" with
  | Option.some (MVal.s mtype) =>
    if mtype ∈ UserManager.message_types then
      let applied := snapshot ++ [DispatchEv.applyOp mtype]
      match msg.find "operation-id" with
      | Option.some (MVal.i opid) =>
        ⟨applied ++ [DispatchEv.detectChanges (Option.some opid)], Option.none⟩
      | _ => ⟨applied, Option.some "operation-id"⟩
    else ⟨snapshot, Option.some mtype⟩
  | _ => ⟨snapshot, Option.some "type"⟩

/-- C3: for every dispatched command message (registered type, operation-id
present) the three phases run in strict order: the snapshot `detect_changes`
call, then the handler selected by the message type, then the report
`detect_changes` call carrying the message's operation-id — and nothing
else. -/
theorem message_dispatch_three_phase (msg : Message) (mtype : String) (opid : Int)
    (htype : msg.find "type" = Option.some (MVal.s mtype))
    (hreg : mtype ∈ UserManager.message_types)
    (hop : msg.find "operation-id" = Option.some (MVal.i opid)) :
    UserManager.message_dispatch msg =
      ⟨[DispatchEv.detectChanges Option.none, DispatchEv.applyOp mtype,
        DispatchEv.detectChanges (Option.some opid)], Option.none⟩ := by
  simp [UserManager.message_dispatch, htype, hreg, hop]

/-- Witness for C3: a concrete `add-user` message with operation-id 99. -/
theorem message_dispatch_three_phase_witness :
    UserManager.message_dispatch
        [("type", MVal.s "add-user"), ("operation-id", MVal.i 99)] =
      ⟨[DispatchEv.detectChanges Option.none, DispatchEv.applyOp "add-user",
        DispatchEv.detectChanges (Option.some 99)], Option.none⟩ :=
  message_dispatch_three_phase _ "add-user" 99 (by decide) (by decide) (by decide)

/-- C7 counterexample: a message of registered type `add-user` carrying no
`operation-id` field does not complete the snapshot/apply/report sequence:
the report phase raises `KeyError` on `message["operation-id"]`
(usermanager.py line 171) after snapshot and apply have run. -/
theorem message_dispatch_missing_opid_cex :
    UserManager.message_dispatch [("type", MVal.s "add-user")] =
      ⟨[DispatchEv.detectChanges Option.none, DispatchEv.applyOp "add-user"],
        Option.some "operation-id"⟩ := by decide

/-- C7 amended: dispatch completes the snapshot/apply/report sequence without
error only when the message carries an `operation-id`; when the field is
absent, snapshot and apply still run but the report phase fails with a
`KeyError` on `"operation-id"`. -/
theorem message_dispatch_operation_id_required (msg : Message) (mtype : String)
    (htype : msg.find "type" = Option.some (MVal.s mtype))
    (hreg : mtype ∈ UserManager.message_types) :
    (∀ opid, msg.find "operation-id" = Option.some (MVal.i opid) →
      UserManager.message_dispatch msg =
        ⟨[DispatchEv.detectChanges Option.none, DispatchEv.applyOp mtype,
          DispatchEv.detectChanges (Option.some opid)], Option.none⟩) ∧
    (msg.find "operation-id" = Option.none →
      UserManager.message_dispatch msg =
        ⟨[DispatchEv.detectChanges Option.none, DispatchEv.applyOp mtype],
          Option.some "operation-id"⟩) := by
  constructor
  · intro opid hop
    simp [UserManager.message_dispatch, htype, hreg, hop]
  · intro hop
    simp [UserManager.message_dispatch, htype, hreg, hop]

/-- Witness for the amended C7 at a concrete message with no operation-id. -/
theorem message_dispatch_operation_id_required_witness :
    UserManager.message_dispatch [("type", MVal.s "lock-user")] =
      ⟨[DispatchEv.detectChanges Option.none, DispatchEv.applyOp "lock-user"],
        Option.some "operation-id"⟩ :=
  (message_dispatch_operation_id_required [("type", MVal.s "lock-user")]
      "lock-user" (by decide) (by decide)).2 (by decide)

/-! ## Privileged RPC allow-list (`UserManagerProtocol`, usermanager.py
lines 46-52) -/

/-- A method of the privileged `UserManager` exposed over the AMP socket. -/
inductive UserManagerMethod where
  | get_locked_usernames
deriving DecidableEq, Repr

/-- `UserManagerProtocol._get_user_manager_method` (usermanager.py lines
49-52): returns the named method only for `"get_locked_usernames"`, and
Python's implicit `None` for every other name. -/
def UserManagerProtocol.get_user_manager_method (name : String) :
    Option UserManagerMethod :=
  if name = "get_locked_usernames" then
    Option.some UserManagerMethod.get_locked_usernames
  else Option.none

/-- An RPC response of the privileged server. -/
inductive RPCResponse where
  | ok (value : List String)
  | unknownMethodError
deriving DecidableEq, Repr

/-- Modelled from the spec: the AMP `MethodCall` responder machinery
(landscape/lib/amp.py is not in src/).  A request names one method; the
server resolves it through `UserManagerProtocol.get_user_manager_method` and
"must reject any method name not explicitly exposed, returning an
`UnknownMethodError`".  The privileged system state is threaded explicitly so
that mutation (or its absence) is visible. -/
def UserManagerProtocol.handle_request (name : String)
    (shadow_file : Option String) (fs : String → ReadOutcome)
    (sysState : List String) : RPCResponse × List String :=
  match UserManagerProtocol.get_user_manager_method name with
  | Option.some UserManagerMethod.get_locked_usernames =>
    (RPCResponse.ok (UserManager.get_locked_usernames shadow_file fs).usernames,
      sysState)
  | Option.none => (RPCResponse.unknownMethodError, sysState)

/-- C2: the privileged server's exposed set is exactly
`{get_locked_usernames}`, and a request naming any method outside it returns
`UnknownMethodError` and performs no mutation (the system state is returned
unchanged). -/
theorem rpc_allow_list (name : String) (shadow_file : Option String)
    (fs : String → ReadOutcome) (sysState : List String)
    (h : name ≠ "get_locked_usernames") :
    (∀ n, (UserManagerProtocol.get_user_manager_method n).isSome ↔
      n = "get_locked_usernames") ∧
    UserManagerProtocol.get_user_manager_method name = Option.none ∧
    UserManagerProtocol.handle_request name shadow_file fs sysState =
      (RPCResponse.unknownMethodError, sysState) := by
  refine ⟨?_, ?_, ?_⟩
  · intro n
    by_cases hn : n = "get_locked_usernames" <;>
      simp [UserManagerProtocol.get_user_manager_method, hn]
  · simp [UserManagerProtocol.get_user_manager_method, h]
  · simp [UserManagerProtocol.handle_request,
      UserManagerProtocol.get_user_manager_method, h]

/-- Witness for C2: the unknown method name `"remove_user"` is rejected with
`UnknownMethodError` and the system state is unchanged. -/
theorem rpc_allow_list_witness :
    UserManagerProtocol.handle_request "remove_user" Option.none
        (fun _ => ReadOutcome.openErr "") ["alice"] =
      (RPCResponse.unknownMethodError, ["alice"]) :=
  (rpc_allow_list "remove_user" Option.none (fun _ => ReadOutcome.openErr "")
      ["alice"] (by decide)).2.2

/-! ## Client-side RPC channel (`RemoteUserManager`, usermanager.py lines
67-97, and the spec §4.4 channel state machine) -/

/-- `RemoteUserManager` (usermanager.py lines 67-97): holds the connected AMP
protocol in `self._protocol`, `None` when not connected. -/
structure RemoteUserManager where
  protocol : Option Nat
deriving DecidableEq, Repr

/-- `RemoteUserManager.connect` (lines 79-88): connects and stores the
protocol. -/
def RemoteUserManager.connect (_ : RemoteUserManager) (p : Nat) :
    RemoteUserManager := ⟨Option.some p⟩

/-- `RemoteUserManager.disconnect` (lines 90-93): loses the connection and
clears `self._protocol`. -/
def RemoteUserManager.disconnect (_ : RemoteUserManager) : RemoteUserManager :=
  ⟨Option.none⟩

/-- State of the client-side RPC channel (spec §4.4). -/
inductive ChanState where
  | disconnected
  | connecting
  | ready
  | shutdown
deriving DecidableEq, Repr, Fintype

/-- Events driving the client-side RPC channel. -/
inductive ChanEvent where
  | use
  | connectDone
  | connLost
  | shutdownCall
deriving DecidableEq, Repr, Fintype

/-- Modelled from the spec: the client-side RPCChannel state machine (§4.4);
the `MethodCall` sender machinery (landscape/lib/amp.py) is not in src/.
`disconnected → connecting → ready → {disconnected on close/error}`; no state
is terminal except explicit shutdown, and `ready → disconnected` re-enters
`connecting` on next use (auto-reconnect). -/
def chanStep : ChanState → ChanEvent → ChanState
  | _, ChanEvent.shutdownCall => ChanState.shutdown
  | ChanState.shutdown, _ => ChanState.shutdown
  | ChanState.disconnected, ChanEvent.use => ChanState.connecting
  | ChanState.connecting, ChanEvent.connectDone => ChanState.ready
  | ChanState.ready, ChanEvent.connLost => ChanState.disconnected
  | s, _ => s

/-- Modelled from the spec: making a remote call in a given channel state —
from any non-shutdown state the call (lazily re-)connects as needed and
succeeds, leaving the channel ready; after explicit shutdown the channel is
unusable (§4.4). -/
def chanCall : ChanState → Bool × ChanState
  | ChanState.shutdown => (false, ChanState.shutdown)
  | _ => (true, ChanState.ready)

/-- The abstraction from `RemoteUserManager` to the channel state: a stored
protocol means the channel is ready, `None` means disconnected. -/
def RemoteUserManager.absState (r : RemoteUserManager) : ChanState :=
  match r.protocol with
  | Option.some _ => ChanState.ready
  | Option.none => ChanState.disconnected

/-- `RemoteUserManager`'s connect and disconnect land in the `ready` and
`disconnected` channel states respectively. -/
theorem remote_user_manager_abs (r : RemoteUserManager) (p : Nat) :
    (r.connect p).absState = ChanState.ready ∧
      r.disconnect.absState = ChanState.disconnected :=
  ⟨rfl, rfl⟩

/-- C8: after a disconnect caused by close or error the channel re-enters
`connecting` on next use and a remote call made then reconnects and succeeds;
only explicit shutdown is terminal (every event leaves `shutdown` in
`shutdown` and calls fail there, while a call from any other state
succeeds). -/
theorem rpc_channel_reconnect :
    chanStep ChanState.ready ChanEvent.connLost = ChanState.disconnected ∧
    chanStep ChanState.disconnected ChanEvent.use = ChanState.connecting ∧
    chanStep ChanState.connecting ChanEvent.connectDone = ChanState.ready ∧
    chanCall (chanStep ChanState.ready ChanEvent.connLost) =
      (true, ChanState.ready) ∧
    (∀ e, chanStep ChanState.shutdown e = ChanState.shutdown) ∧
    (chanCall ChanState.shutdown).1 = false ∧
    (∀ s, s ≠ ChanState.shutdown → (chanCall s).1 = true) := by
  decide

/-! ## The codec (`bpickle`)

Modelled from the spec (§4.1): `landscape/lib/bpickle.py` is not in src/
(only its callers in the transport tests are).  The spec prescribes a compact
self-describing binary form over the restricted type set — strings, integers,
floating point, booleans, ordered sequences, string-keyed mappings, `None` —
where each value is prefixed by a type tag, integers keep exact magnitude and
floats use a fixed-width binary representation.  Bytes are `List Nat` with
every emitted element `< 256`. -/

/-- A base-128 length-then-continue encoding of an unbounded natural number:
each emitted byte is `< 256`, magnitude is preserved exactly. -/
def natBytes (n : Nat) : List Nat :=
  if n < 128 then [n] else (n % 128 + 128) :: natBytes (n / 128)
termination_by n
decreasing_by exact Nat.div_lt_self (by omega) (by omega)

/-- Decode a `natBytes`-encoded natural from the front of a byte string. -/
def decodeNat : List Nat → Option (Nat × List Nat)
  | [] => Option.none
  | b :: r =>
    if b < 128 then Option.some (b, r)
    else (decodeNat r).map fun p => (b - 128 + 128 * p.1, p.2)

/-- Encode the characters of a string, one codepoint per `natBytes` chunk. -/
def encodeChars : List Char → List Nat
  | [] => []
  | c :: cs => natBytes c.toNat ++ encodeChars cs

/-- Decode `n` characters from the front of a byte string. -/
def decodeChars : Nat → List Nat → Option (List Char × List Nat)
  | 0, bs => Option.some ([], bs)
  | n + 1, bs =>
    (decodeNat bs).bind fun p =>
      (decodeChars n p.2).map fun q => (Char.ofNat p.1 :: q.1, q.2)

/-- A string chunk: character count, then the characters. -/
def strBytes (s : String) : List Nat :=
  natBytes s.toList.length ++ encodeChars s.toList

/-- Decode a string chunk from the front of a byte string. -/
def decodeStr (bs : List Nat) : Option (String × List Nat) :=
  (decodeNat bs).bind fun p =>
    (decodeChars p.1 p.2).map fun q => (String.mk q.1, q.2)

/-- A 64-bit word as exactly eight little-endian bytes (the fixed-width
binary representation of a floating-point value's bit pattern). -/
def wordBytes (w : Nat) : List Nat :=
  [w % 256, w / 256 % 256, w / 256 / 256 % 256, w / 256 / 256 / 256 % 256,
   w / 256 / 256 / 256 / 256 % 256, w / 256 / 256 / 256 / 256 / 256 % 256,
   w / 256 / 256 / 256 / 256 / 256 / 256 % 256,
   w / 256 / 256 / 256 / 256 / 256 / 256 / 256 % 256]

/-- Decode a 64-bit word from exactly eight little-endian bytes. -/
def decodeWord : List Nat → Option (Fin (2 ^ 64) × List Nat)
  | b0 :: b1 :: b2 :: b3 :: b4 :: b5 :: b6 :: b7 :: r =>
    Option.some
      (⟨b0 % 256 + 256 * (b1 % 256 + 256 * (b2 % 256 + 256 * (b3 % 256 +
          256 * (b4 % 256 + 256 * (b5 % 256 + 256 * (b6 % 256 +
          256 * (b7 % 256))))))), by omega⟩, r)
  | _ => Option.none

mutual

/-- A value of the codec's restricted type set: strings, integers (exact
magnitude), floating point (a 64-bit bit pattern), booleans, ordered
sequences, string-keyed mappings, and `None`. -/
inductive BValue where
  | str (s : String)
  | int (n : Int)
  | float (bits : Fin (2 ^ 64))
  | bool (b : Bool)
  | list (vs : BList)
  | dict (ps : BDict)
  | null

/-- An ordered sequence of codec values. -/
inductive BList where
  | nil
  | cons (v : BValue) (rest : BList)

/-- A string-keyed mapping of codec values, in insertion order. -/
inductive BDict where
  | nil
  | cons (k : String) (v : BValue) (rest : BDict)

end

/-- Number of elements of a `BList`. -/
def BList.length : BList → Nat
  | BList.nil => 0
  | BList.cons _ r => r.length + 1

/-- Number of entries of a `BDict`. -/
def BDict.length : BDict → Nat
  | BDict.nil => 0
  | BDict.cons _ _ r => r.length + 1

mutual

/-- Modelled from the spec: `bpickle` encoding (§4.1) — every value is
prefixed by a type tag, so decoding needs no external schema. -/
def BValue.encode : BValue → List Nat
  | BValue.str s => 0 :: strBytes s
  | BValue.int (Int.ofNat n) => 1 :: natBytes n
  | BValue.int (Int.negSucc n) => 2 :: natBytes n
  | BValue.float f => 3 :: wordBytes f.val
  | BValue.bool b => [4, if b then 1 else 0]
  | BValue.list vs => 5 :: (natBytes vs.length ++ BList.encode vs)
  | BValue.dict ps => 6 :: (natBytes ps.length ++ BDict.encode ps)
  | BValue.null => [7]

/-- Encode the elements of a sequence in order. -/
def BList.encode : BList → List Nat
  | BList.nil => []
  | BList.cons v r => BValue.encode v ++ BList.encode r

/-- Encode the entries of a mapping in order: key chunk, then value. -/
def BDict.encode : BDict → List Nat
  | BDict.nil => []
  | BDict.cons k v r => strBytes k ++ BValue.encode v ++ BDict.encode r

end

mutual

/-- Modelled from the spec: `bpickle` decoding (§4.1) — dispatch on the type
tag; malformed input yields `Option.none` (the `DecodeError` case).  The
fuel argument bounds the nesting depth and only ever needs the input's
length. -/
def BValue.decode : Nat → List Nat → Option (BValue × List Nat)
  | 0, _ => Option.none
  | fuel + 1, bs =>
    match bs with
    | 0 :: r => (decodeStr r).map fun p => (BValue.str p.1, p.2)
    | 1 :: r => (decodeNat r).map fun p => (BValue.int (Int.ofNat p.1), p.2)
    | 2 :: r => (decodeNat r).map fun p => (BValue.int (Int.negSucc p.1), p.2)
    | 3 :: r => (decodeWord r).map fun p => (BValue.float p.1, p.2)
    | 4 :: 0 :: r => Option.some (BValue.bool false, r)
    | 4 :: 1 :: r => Option.some (BValue.bool true, r)
    | 5 :: r =>
      (decodeNat r).bind fun p =>
        (BList.decode fuel p.1 p.2).map fun q => (BValue.list q.1, q.2)
    | 6 :: r =>
      (decodeNat r).bind fun p =>
        (BDict.decode fuel p.1 p.2).map fun q => (BValue.dict q.1, q.2)
    | 7 :: r => Option.some (BValue.null, r)
    | _ => Option.none
termination_by fuel _ => (fuel, 0)

/-- Decode `n` sequence elements from the front of a byte string. -/
def BList.decode : Nat → Nat → List Nat → Option (BList × List Nat)
  | _, 0, bs => Option.some (BList.nil, bs)
  | fuel, n + 1, bs =>
    (BValue.decode fuel bs).bind fun p =>
      (BList.decode fuel n p.2).map fun q => (BList.cons p.1 q.1, q.2)
termination_by fuel n _ => (fuel, n + 1)

/-- Decode `n` mapping entries from the front of a byte string. -/
def BDict.decode : Nat → Nat → List Nat → Option (BDict × List Nat)
  | _, 0, bs => Option.some (BDict.nil, bs)
  | fuel, n + 1, bs =>
    (decodeStr bs).bind fun kp =>
      (BValue.decode fuel kp.2).bind fun p =>
        (BDict.decode fuel n p.2).map fun q => (BDict.cons kp.1 p.1 q.1, q.2)
termination_by fuel n _ => (fuel, n + 1)

end

/-- `bpickle.dumps`, modelled from the spec: serialize one value. -/
def bpickle.dumps (v : BValue) : List Nat := BValue.encode v

/-- `bpickle.loads`, modelled from the spec: parse one value, requiring the
whole input to be consumed. -/
def bpickle.loads (bs : List Nat) : Option BValue :=
  match BValue.decode bs.length bs with
  | Option.some (v, []) => Option.some v
  | _ => Option.none

/-- Decoding a `natBytes` encoding returns the encoded number and the tail. -/
theorem decodeNat_natBytes (n : Nat) : ∀ rest,
    decodeNat (natBytes n ++ rest) = Option.some (n, rest) := by
  induction n using Nat.strong_induction_on with
  | _ n ih =>
    intro rest
    rw [natBytes]
    split
    · next h => simp [decodeNat, h]
    · next h =>
      rw [List.cons_append, decodeNat, if_neg (by omega),
        ih (n / 128) (Nat.div_lt_self (by omega) (by omega))]
      simp only [Option.map_some', Option.some.injEq, Prod.mk.injEq]
      exact ⟨by omega, trivial⟩

/-- Decoding the encoded characters returns them and the tail. -/
theorem decodeChars_encodeChars (cs : List Char) : ∀ rest,
    decodeChars cs.length (encodeChars cs ++ rest) = Option.some (cs, rest) := by
  induction cs with
  | nil => intro rest; simp [encodeChars, decodeChars]
  | cons c cs ih =>
    intro rest
    simp [encodeChars, decodeChars, List.append_assoc, decodeNat_natBytes, ih,
      Char.ofNat_toNat]

/-- Decoding a string chunk returns the string and the tail. -/
theorem decodeStr_strBytes (s : String) (rest : List Nat) :
    decodeStr (strBytes s ++ rest) = Option.some (s, rest) := by
  simp only [decodeStr, strBytes, List.append_assoc]
  rw [decodeNat_natBytes]
  simp only [Option.some_bind']
  rw [decodeChars_encodeChars]
  simp only [Option.map_some', Option.some.injEq, Prod.mk.injEq]
  exact ⟨by cases s; rfl, trivial⟩

/-- Decoding the eight bytes of a 64-bit word returns the word and the
tail. -/
theorem decodeWord_wordBytes (f : Fin (2 ^ 64)) (rest : List Nat) :
    decodeWord (wordBytes f.val ++ rest) = Option.some (f, rest) := by
  have hf := f.isLt
  simp only [wordBytes, decodeWord, List.cons_append, List.nil_append,
    Option.some.injEq, Prod.mk.injEq, Fin.ext_iff]
  exact ⟨by omega, trivial⟩

/-- Every encoded value takes at least one byte (its type tag). -/
theorem BValue.encode_length_pos (v : BValue) : 1 ≤ (BValue.encode v).length := by
  cases v with
  | str s => simp [BValue.encode]
  | int n => cases n <;> simp [BValue.encode]
  | float f => simp [BValue.encode]
  | bool b => simp [BValue.encode]
  | list vs => simp [BValue.encode]
  | dict ps => simp [BValue.encode]
  | null => simp [BValue.encode]

/-- Structural induction along the spine of a `BList` (the mutual recursor
has several motives, so `induction` needs this single-motive principle). -/
theorem blist_induction (motive : BList → Prop) (nil : motive BList.nil)
    (cons : ∀ v r, motive r → motive (BList.cons v r)) : ∀ l, motive l
  | BList.nil => nil
  | BList.cons v r => cons v r (blist_induction motive nil cons r)

/-- Structural induction along the spine of a `BDict`. -/
theorem bdict_induction (motive : BDict → Prop) (nil : motive BDict.nil)
    (cons : ∀ k v r, motive r → motive (BDict.cons k v r)) : ∀ d, motive d
  | BDict.nil => nil
  | BDict.cons k v r => cons k v r (bdict_induction motive nil cons r)

/-- Sequence round-trip, assuming value round-trip at the same fuel. -/
theorem blist_decode_encode_of (fuel : Nat)
    (hV : ∀ v : BValue, (BValue.encode v).length ≤ fuel → ∀ rest,
      BValue.decode fuel (BValue.encode v ++ rest) = Option.some (v, rest)) :
    ∀ l : BList, (BList.encode l).length ≤ fuel → ∀ rest,
      BList.decode fuel l.length (BList.encode l ++ rest) = Option.some (l, rest) := by
  intro l
  induction l using blist_induction with
  | nil => intro _ rest; simp [BList.encode, BList.length, BList.decode]
  | cons v r ih =>
    intro hlen rest
    have h1 : (BValue.encode v).length ≤ fuel := by
      simp [BList.encode] at hlen; omega
    have h2 : (BList.encode r).length ≤ fuel := by
      simp [BList.encode] at hlen; omega
    rw [BList.length, BList.encode]
    simp only [BList.decode, List.append_assoc]
    rw [hV v h1 (BList.encode r ++ rest)]
    simp only [Option.some_bind']
    rw [ih h2 rest]
    simp

/-- Mapping round-trip, assuming value round-trip at the same fuel. -/
theorem bdict_decode_encode_of (fuel : Nat)
    (hV : ∀ v : BValue, (BValue.encode v).length ≤ fuel → ∀ rest,
      BValue.decode fuel (BValue.encode v ++ rest) = Option.some (v, rest)) :
    ∀ d : BDict, (BDict.encode d).length ≤ fuel → ∀ rest,
      BDict.decode fuel d.length (BDict.encode d ++ rest) = Option.some (d, rest) := by
  intro d
  induction d using bdict_induction with
  | nil => intro _ rest; simp [BDict.encode, BDict.length, BDict.decode]
  | cons k v r ih =>
    intro hlen rest
    have h1 : (BValue.encode v).length ≤ fuel := by
      simp [BDict.encode] at hlen; omega
    have h2 : (BDict.encode r).length ≤ fuel := by
      simp [BDict.encode] at hlen; omega
    rw [BDict.length, BDict.encode]
    simp only [BDict.decode, List.append_assoc]
    rw [decodeStr_strBytes k (BValue.encode v ++ (BDict.encode r ++ rest))]
    simp only [Option.some_bind']
    rw [hV v h1 (BDict.encode r ++ rest)]
    simp only [Option.some_bind']
    rw [ih h2 rest]
    simp

/-- Value round-trip: with fuel at least the encoding's length, decoding an
encoded value returns the value and the tail. -/
theorem BValue.decode_encode (fuel : Nat) :
    ∀ v : BValue, (BValue.encode v).length ≤ fuel → ∀ rest,
      BValue.decode fuel (BValue.encode v ++ rest) = Option.some (v, rest) := by
  induction fuel using Nat.strong_induction_on with
  | _ fuel ih =>
    intro v hv rest
    cases fuel with
    | zero => exact absurd hv (by have := BValue.encode_length_pos v; omega)
    | succ f =>
      have hV := ih f (Nat.lt_succ_self f)
      cases v with
      | str s => simp [BValue.encode, BValue.decode, decodeStr_strBytes]
      | int n =>
        cases n <;> simp [BValue.encode, BValue.decode, decodeNat_natBytes]
      | float fl => simp [BValue.encode, BValue.decode, decodeWord_wordBytes]
      | bool b => cases b <;> simp [BValue.encode, BValue.decode]
      | null => simp [BValue.encode, BValue.decode]
      | list vs =>
        have hlen : (BList.encode vs).length ≤ f := by
          simp [BValue.encode] at hv; omega
        simp [BValue.encode, BValue.decode, List.append_assoc,
          decodeNat_natBytes, blist_decode_encode_of f hV vs hlen]
      | dict ps =>
        have hlen : (BDict.encode ps).length ≤ f := by
          simp [BValue.encode] at hv; omega
        simp [BValue.encode, BValue.decode, List.append_assoc,
          decodeNat_natBytes, bdict_decode_encode_of f hV ps hlen]

/-- The codec round-trips: parsing a serialized value returns it exactly. -/
theorem loads_dumps (v : BValue) :
    bpickle.loads (bpickle.dumps v) = Option.some v := by
  have h := BValue.decode_encode (BValue.encode v).length v (le_refl _) []
  rw [List.append_nil] at h
  simp [bpickle.loads, bpickle.dumps, h]

/-- C6: for every value composed of the codec's restricted type set (strings,
integers, floating point, booleans, ordered sequences, string-keyed mappings,
None), `decode (encode v) = v`. -/
theorem codec_round_trip (v : BValue) :
    bpickle.loads (bpickle.dumps v) = Option.some v :=
  loads_dumps v

/-! ## The exchange transport (`HTTPTransport`)

Modelled from the spec (§4.2, §6, §7): `landscape/broker/transport.py` is not
in src/ — only its tests (src/landscape/broker/tests/test_transport.py) are.
One exchange is one POST of the bpickle-serialized batch with the three
identifying headers; with a pinned public key configured, the server
certificate is verified against it before any body is sent, failing closed
with the fixed log message on mismatch. -/

/-- Modelled from the spec: the agent's version string (`landscape.VERSION`
is not in src/); the claims only need it as an opaque version value. -/
def VERSION : String := "1.5.5"

/-- `HTTPTransport` (landscape/broker/transport.py): endpoint URL and the
optional pinned server public key. -/
structure HTTPTransport where
  url : String
  pubkey : Option String

/-- A received HTTP request: its headers and its body. -/
structure HTTPRequest where
  headers : List (String × String)
  body : List Nat

/-- The test double `DataCollectingResource`
(src/landscape/broker/tests/test_transport.py lines 27-35): captures the
request and its content, both `None` until a request is rendered. -/
structure DataCollectingResource where
  request : Option HTTPRequest
  content : Option (List Nat)

/-- A TLS endpoint: the certificate it presents and the capturing resource
it serves. -/
structure TLSEndpoint where
  cert : String
  resource : DataCollectingResource

/-- The outcome of one exchange as seen by the caller. -/
inductive ExchangeResult where
  | ok (response : BValue)
  | certError

/-- One exchange: the caller-visible result, the endpoint afterwards, and the
log entries emitted. -/
structure ExchangeOutcome where
  result : ExchangeResult
  endpoint : TLSEndpoint
  log : List String

/-- The identifying headers of every request (spec §4.2/§6): the optional
caller identity, the software identity, and the protocol version. -/
def requestHeaders (computer_id : Option String) (message_api : String) :
    List (String × String) :=
  (match computer_id with
   | Option.some cid => [("x-computer-id", cid)]
   | Option.none => []) ++
  [("user-agent", "landscape-client/" ++ VERSION),
   ("x-message-api", message_api)]

/-- The fixed, greppable certificate-failure log message (spec §4.2/§7). -/
def certFailureMessage : String := "server certificate verification failed"

/-- A successful POST: the endpoint captures the request (headers and
serialized payload) and the caller gets the endpoint's response. -/
def HTTPTransport.post (ep : TLSEndpoint) (payload : BValue)
    (computer_id : Option String) (message_api : String) (response : BValue) :
    ExchangeOutcome :=
  { result := ExchangeResult.ok response,
    endpoint := { ep with resource :=
      ⟨Option.some ⟨requestHeaders computer_id message_api,
          bpickle.dumps payload⟩,
        Option.some (bpickle.dumps payload)⟩ },
    log := [] }

/-- Modelled from the spec: `HTTPTransport.exchange`
(landscape/broker/transport.py is not in src/; contract from spec §4.2 and
the tests).  With a pinned key configured the server certificate is compared
against it before any request body is sent: on mismatch the exchange fails
immediately, no partial upload occurs, and the fixed message is logged.
Otherwise the serialized batch is POSTed with the identifying headers. -/
def HTTPTransport.exchange (t : HTTPTransport) (ep : TLSEndpoint)
    (payload : BValue) (computer_id : Option String) (message_api : String)
    (response : BValue) : ExchangeOutcome :=
  match t.pubkey with
  | Option.some key =>
    if ep.cert = key then
      HTTPTransport.post ep payload computer_id message_api response
    else
      { result := ExchangeResult.certError, endpoint := ep,
        log := [certFailureMessage] }
  | Option.none => HTTPTransport.post ep payload computer_id message_api response

/-- C1: for every exchange against an endpoint whose certificate does not
match the configured pinned key, the exchange fails before any request body
is delivered — the capturing endpoint observes no request and no content —
and the log contains the fixed string "server certificate verification
failed". -/
theorem cert_mismatch_fails_closed (t : HTTPTransport) (cert key : String)
    (payload : BValue) (cid : Option String) (api : String) (response : BValue)
    (hk : t.pubkey = Option.some key) (hne : cert ≠ key) :
    (t.exchange ⟨cert, ⟨Option.none, Option.none⟩⟩ payload cid api
        response).result = ExchangeResult.certError ∧
    (t.exchange ⟨cert, ⟨Option.none, Option.none⟩⟩ payload cid api
        response).endpoint.resource.request = Option.none ∧
    (t.exchange ⟨cert, ⟨Option.none, Option.none⟩⟩ payload cid api
        response).endpoint.resource.content = Option.none ∧
    "server certificate verification failed" ∈
      (t.exchange ⟨cert, ⟨Option.none, Option.none⟩⟩ payload cid api
        response).log := by
  simp [HTTPTransport.exchange, hk, hne, certFailureMessage]

/-- Witness for C1 at concrete inputs: pinned key "PUB", endpoint cert
"BAD". -/
theorem cert_mismatch_fails_closed_witness :
    (HTTPTransport.exchange ⟨"https://localhost/", Option.some "PUB"⟩
        ⟨"BAD", ⟨Option.none, Option.none⟩⟩ (BValue.str "HI")
        (Option.some "34") "X.Y" (BValue.str "Great.")).result =
      ExchangeResult.certError ∧
    (HTTPTransport.exchange ⟨"https://localhost/", Option.some "PUB"⟩
        ⟨"BAD", ⟨Option.none, Option.none⟩⟩ (BValue.str "HI")
        (Option.some "34") "X.Y" (BValue.str "Great.")).endpoint.resource.request =
      Option.none ∧
    (HTTPTransport.exchange ⟨"https://localhost/", Option.some "PUB"⟩
        ⟨"BAD", ⟨Option.none, Option.none⟩⟩ (BValue.str "HI")
        (Option.some "34") "X.Y" (BValue.str "Great.")).endpoint.resource.content =
      Option.none ∧
    "server certificate verification failed" ∈
      (HTTPTransport.exchange ⟨"https://localhost/", Option.some "PUB"⟩
          ⟨"BAD", ⟨Option.none, Option.none⟩⟩ (BValue.str "HI")
          (Option.some "34") "X.Y" (BValue.str "Great.")).log :=
  cert_mismatch_fails_closed ⟨"https://localhost/", Option.some "PUB"⟩ "BAD"
    "PUB" (BValue.str "HI") (Option.some "34") "X.Y" (BValue.str "Great.")
    rfl (by decide)

/-- C4: an exchange with computer_id="34" and message_api="X.Y" delivers to
the server the headers x-computer-id=34 and x-message-api=X.Y, a user-agent
containing the agent's version, and a request body that decodes to the
original batch. -/
theorem exchange_request_data (t : HTTPTransport) (ep : TLSEndpoint)
    (payload : BValue) (response : BValue) (hk : t.pubkey = Option.none) :
    ∃ req,
      (t.exchange ep payload (Option.some "34") "X.Y"
          response).endpoint.resource.request = Option.some req ∧
      req.headers.lookup "x-computer-id" = Option.some "34" ∧
      req.headers.lookup "x-message-api" = Option.some "X.Y" ∧
      (∃ pre post,
        req.headers.lookup "user-agent" = Option.some (pre ++ VERSION ++ post)) ∧
      bpickle.loads req.body = Option.some payload := by
  refine ⟨⟨requestHeaders (Option.some "34") "X.Y", bpickle.dumps payload⟩,
    ?_, ?_, ?_, ⟨"landscape-client/", "", ?_⟩, loads_dumps payload⟩
  · simp [HTTPTransport.exchange, hk, HTTPTransport.post]
  · simp [requestHeaders]
  · simp [requestHeaders, List.lookup]
  · simp [requestHeaders, List.lookup]

/-- Witness for C4 at concrete inputs. -/
theorem exchange_request_data_witness :
    ∃ req,
      (HTTPTransport.exchange ⟨"http://localhost/", Option.none⟩
          ⟨"", ⟨Option.none, Option.none⟩⟩ (BValue.str "HI")
          (Option.some "34") "X.Y"
          (BValue.str "Great.")).endpoint.resource.request = Option.some req ∧
      req.headers.lookup "x-computer-id" = Option.some "34" ∧
      req.headers.lookup "x-message-api" = Option.some "X.Y" ∧
      (∃ pre post,
        req.headers.lookup "user-agent" = Option.some (pre ++ VERSION ++ post)) ∧
      bpickle.loads req.body = Option.some (BValue.str "HI") :=
  exchange_request_data ⟨"http://localhost/", Option.none⟩
    ⟨"", ⟨Option.none, Option.none⟩⟩ (BValue.str "HI") (BValue.str "Great.") rfl

/-- C5: an exchange against a TLS endpoint whose certificate matches the
configured pinned key succeeds, and the server observes a payload that
decodes to a value equal to the original batch. -/
theorem cert_match_succeeds (t : HTTPTransport) (key : String)
    (res : DataCollectingResource) (payload : BValue) (cid : Option String)
    (api : String) (response : BValue) (hk : t.pubkey = Option.some key) :
    (t.exchange ⟨key, res⟩ payload cid api response).result =
      ExchangeResult.ok response ∧
    ∃ body,
      (t.exchange ⟨key, res⟩ payload cid api
          response).endpoint.resource.content = Option.some body ∧
      bpickle.loads body = Option.some payload := by
  refine ⟨?_, bpickle.dumps payload, ?_, loads_dumps payload⟩
  · simp [HTTPTransport.exchange, hk, HTTPTransport.post]
  · simp [HTTPTransport.exchange, hk, HTTPTransport.post]

/-- Witness for C5 at concrete inputs: pinned key "PUB", endpoint cert
"PUB". -/
theorem cert_match_succeeds_witness :
    (HTTPTransport.exchange ⟨"https://localhost/", Option.some "PUB"⟩
        ⟨"PUB", ⟨Option.none, Option.none⟩⟩ (BValue.str "HI")
        (Option.some "34") "X.Y" (BValue.str "Great.")).result =
      ExchangeResult.ok (BValue.str "Great.") ∧
    ∃ body,
      (HTTPTransport.exchange ⟨"https://localhost/", Option.some "PUB"⟩
          ⟨"PUB", ⟨Option.none, Option.none⟩⟩ (BValue.str "HI")
          (Option.some "34") "X.Y"
          (BValue.str "Great.")).endpoint.resource.content = Option.some body ∧
      bpickle.loads body = Option.some (BValue.str "HI") :=
  cert_match_succeeds ⟨"https://localhost/", Option.some "PUB"⟩ "PUB"
    ⟨Option.none, Option.none⟩ (BValue.str "HI") (Option.some "34") "X.Y"
    (BValue.str "Great.") rfl

end Landscape
